import Mathlib

/-!
A shallow embedding of the client-side pipeline simulator of the
qa-automation-platform frontend (the page component shipped alongside
`src/lib/types.ts`): the mock artifact generators, the fixed scoring
rules and the 8-stage `runPipeline` state machine.

Modelling conventions:
* `Math.random()` is modelled as an explicit stream `g : Nat → ℚ` of
  draws, consumed left to right exactly in the order the source consumes
  them (inside an object literal, property values are evaluated in
  source order); JavaScript number literals are modelled as exact
  rationals.
* The stage generators in the source are total, but `runPipeline` wraps
  them in `try/catch`; the catch path is modelled by a `Faults` record
  that makes a chosen generator throw with a given error message.
* Log entries are modelled by their message text; the source prefixes a
  wall-clock timestamp, which is outside the embedding.  The rendering
  `x.toFixed(0)` is modelled as rounding a rational to the nearest
  integer.
* React state updates `setPipeline(p => ...)` become explicit functional
  updates of a `PipelineState` value; the log `useState` becomes an
  explicit `List String` that is only ever appended to.
-/

namespace StudioView

/-- `WorkflowStep` of the analysis artifact (interface `WorkflowStep`). -/
structure WorkflowStep where
  step_number : Nat
  title : String
  description : String
  action_type : String
  system : String
  ui_elements : List String
  expected_output : String
  timestamp : ℚ
  duration : ℚ
deriving DecidableEq

/-- Interface `DetectedSystem`. -/
structure DetectedSystem where
  name : String
  system_type : String
  confidence : ℚ
  version : String
deriving DecidableEq

/-- One entry of `data_extraction_patterns` in the analysis artifact. -/
structure ExtractionPattern where
  field : String
  confidence : ℚ
  «example» : String
deriving DecidableEq

/-- The stage-2 analysis artifact (the `analysis` field of `PipelineState`). -/
structure Analysis where
  workflow_steps : List WorkflowStep
  systems_detected : List DetectedSystem
  data_extraction_patterns : List ExtractionPattern
  process_summary : String
  video_duration_seconds : ℚ
  frames_analyzed : Nat
deriving DecidableEq

/-- The stage-3 system-detection artifact (the `systems` field). -/
structure Systems where
  total_systems_found : Nat
  detected_systems : List DetectedSystem
  detected_workflows : List String
deriving DecidableEq

/-- Interface `SOPStep` of the page component (the slim one, without
timing or element detail). -/
structure SOPStep where
  step_number : Nat
  title : String
  description : String
  system_involved : String
  action_type : String
  expected_output : String
deriving DecidableEq

/-- The stage-4 SOP artifact (the `sop` field of `PipelineState`). -/
structure SOP where
  id : String
  title : String
  description : String
  steps : List SOPStep
  systems_involved : List String
  success_criteria : String
deriving DecidableEq

/-- One element of `execution.step_results`. -/
structure StepResult where
  step_number : Nat
  title : String
  status : String
  output : String
deriving DecidableEq

/-- The stage-7 execution artifact (the `execution` field). -/
structure Execution where
  execution_id : String
  status : String
  passed_steps : Nat
  total_steps : Nat
  success_rate : ℚ
  step_results : List StepResult
deriving DecidableEq

/-- One element of `validation.validation_steps`. -/
structure ValidationStep where
  step_number : Nat
  title : String
  status : String
  match_score : ℚ
  expected : String
  actual : String
deriving DecidableEq

/-- The stage-8 validation artifact (the `validation` field). -/
structure Validation where
  id : String
  overall_status : String
  passed_steps : Nat
  total_steps : Nat
  success_rate : ℚ
  validation_steps : List ValidationStep
  recommendations : List String
deriving DecidableEq

/-- Interface `PipelineState` of the page component: stage counter,
run status, and the five optional stage artifacts. -/
structure PipelineState where
  stage : Nat
  status : String
  videoId : Option String
  analysis : Option Analysis
  systems : Option Systems
  sop : Option SOP
  execution : Option Execution
  validation : Option Validation
deriving DecidableEq

/-- The `useState` initial value of the pipeline state:
`stage: 0, status: idle`, all artifacts `null`. -/
def initialPipelineState : PipelineState :=
  { stage := 0
  , status := "idle"
  , videoId := none
  , analysis := none
  , systems := none
  , sop := none
  , execution := none
  , validation := none }

/-- `Math.floor(r * 16).toString(16)` for one random draw, as a single
hex character (the source only ever feeds it draws in `[0,1)`, where
the floor is `0..15`). -/
def hexChar (n : Nat) : Char :=
  if n < 10 then Char.ofNat (48 + n) else Char.ofNat (87 + n)

/-- `randomHex(len)` of the source, reading its `len` draws from the
stream `g` starting at position `k`. -/
def randomHexFrom (g : Nat → ℚ) (k : Nat) (len : Nat) : String :=
  String.mk ((List.range len).map (fun i => hexChar (Rat.floor (g (k + i) * 16)).toNat))

/-- `generateMockAnalysis()`: a fixed, fully deterministic analysis
artifact (consumes no random draws). -/
def generateMockAnalysis : Analysis :=
  { workflow_steps :=
      [ { step_number := 1, title := "Open SAP ERP System"
        , description := "User navigates to SAP Fiori Launchpad via browser"
        , action_type := "navigate", system := "SAP ERP"
        , ui_elements := ["SAP Fiori Launchpad", "Browser URL bar"]
        , expected_output := "SAP dashboard loaded", timestamp := 0, duration := 8.5 }
      , { step_number := 2, title := "Enter Authentication Credentials"
        , description := "User enters username and password into SAP login form"
        , action_type := "input", system := "SAP ERP"
        , ui_elements := ["Username field", "Password field", "Sign In button"]
        , expected_output := "Authentication successful, main menu displayed"
        , timestamp := 8.5, duration := 12.3 }
      , { step_number := 3, title := "Navigate to Purchase Order Module"
        , description := "User opens Materials Management > Purchase Order > Create (ME21N)"
        , action_type := "click", system := "SAP ERP"
        , ui_elements := ["Main Menu", "Materials Management", "Create PO button"]
        , expected_output := "Purchase Order creation form opened"
        , timestamp := 20.8, duration := 6.2 }
      , { step_number := 4, title := "Fill Purchase Order Form"
        , description := "User enters vendor V-1001, material MAT-5890, quantity 500, delivery date"
        , action_type := "input", system := "SAP ERP"
        , ui_elements := ["Vendor field", "Material field", "Quantity field"]
        , expected_output := "PO form populated with all required fields"
        , timestamp := 27.0, duration := 18.7 }
      , { step_number := 5, title := "Submit and Verify Purchase Order"
        , description := "User clicks Submit, PO number 4500012847 is generated"
        , action_type := "click", system := "SAP ERP"
        , ui_elements := ["Submit button", "Confirmation dialog", "PO number display"]
        , expected_output := "PO 4500012847 created, status: Pending Approval"
        , timestamp := 45.7, duration := 10.1 } ]
  , systems_detected :=
      [ { name := "SAP ERP", system_type := "erp", confidence := 0.96, version := "S/4HANA 2023" }
      , { name := "Microsoft Outlook", system_type := "email", confidence := 0.82, version := "Microsoft 365" }
      , { name := "Chrome Browser", system_type := "other", confidence := 0.71, version := "v120" } ]
  , data_extraction_patterns :=
      [ { field := "PO_Number", confidence := 0.95, «example» := "4500012847" }
      , { field := "Vendor_ID", confidence := 0.92, «example» := "V-1001" }
      , { field := "Material_Code", confidence := 0.90, «example» := "MAT-5890" }
      , { field := "Quantity", confidence := 0.88, «example» := "500" }
      , { field := "Total_Amount", confidence := 0.85, «example» := "$125,000.00" } ]
  , process_summary := "SAP Purchase Order Creation - User logs into SAP S/4HANA, navigates to ME21N, fills vendor/material/quantity details, submits PO, and receives confirmation"
  , video_duration_seconds := 55.8
  , frames_analyzed := 167 }

/-- `generateMockSOP(videoId, analysis)`, reading the 8 draws of its
`sop-${randomHex(8)}` id from `g` at position `k`; returns the SOP and
the next stream position.  Note that the source ignores `videoId` in
the returned object and hard-codes `systems_involved`. -/
def generateMockSOP (g : Nat → ℚ) (k : Nat) (videoId : String) (analysis : Analysis) :
    SOP × Nat :=
  ( { id := "sop-" ++ randomHexFrom g k 8
    , title := "SAP Purchase Order Creation"
    , description := analysis.process_summary
    , steps := analysis.workflow_steps.map (fun ws =>
        { step_number := ws.step_number
        , title := ws.title
        , description := ws.description
        , system_involved := ws.system
        , action_type := ws.action_type
        , expected_output := ws.expected_output })
    , systems_involved := ["SAP ERP", "Microsoft Outlook", "Chrome Browser"]
    , success_criteria := "PO number generated; Status shows Pending Approval; Email confirmation triggered" }
  , k + 8 )

/-- The `sop.steps.map(s => ...)` body of `generateMockExecution`: each
step consumes two draws, one for `status` (`Math.random() < 0.92 ?
'completed' : 'failed'`) and then a second, independent one for
`output` (`Math.random() < 0.92 ? s.expected_output : 'Element not
found'`). -/
def execStepResults (g : Nat → ℚ) (k : Nat) : List SOPStep → List StepResult
  | [] => []
  | s :: rest =>
      { step_number := s.step_number
      , title := s.title
      , status := if g k < 0.92 then "completed" else "failed"
      , output := if g (k + 1) < 0.92 then s.expected_output else "Element not found" }
      :: execStepResults g (k + 2) rest

/-- `generateMockExecution(sop)`: the per-step results (two draws per
step, consumed first), then the `exec-${randomHex(8)}` id (8 more
draws); returns the artifact and the next stream position. -/
def generateMockExecution (g : Nat → ℚ) (k : Nat) (sop : SOP) : Execution × Nat :=
  let stepResults := execStepResults g k sop.steps
  let passed := (stepResults.filter (fun s => s.status == "completed")).length
  ( { execution_id := "exec-" ++ randomHexFrom g (k + 2 * sop.steps.length) 8
    , status := if passed = stepResults.length then "completed" else "partial"
    , passed_steps := passed
    , total_steps := stepResults.length
    , success_rate := (passed : ℚ) / (stepResults.length : ℚ)
    , step_results := stepResults }
  , k + 2 * sop.steps.length + 8 )

/-- The `sop.steps.map(s => ...)` body of `generateMockValidation`:
looks up the execution result by `step_number` with `find`, scores
`1.0` when its status is `completed` and `0.16` otherwise (the source
names the score `match`), classifies against the fixed thresholds
`0.8` and `0.5`, and renders `actual` as `execStep?.output || 'No
data'` (JavaScript `||`, under which the empty string also falls back
to the sentinel). -/
def validationStepFor (stepResults : List StepResult) (s : SOPStep) : ValidationStep :=
  let execStep := stepResults.find? (fun e => e.step_number == s.step_number)
  let matchScore : ℚ := if execStep.map StepResult.status = some "completed" then 1 else 0.16
  { step_number := s.step_number
  , title := s.title
  , status := if matchScore ≥ 0.8 then "passed" else if matchScore ≥ 0.5 then "partial" else "failed"
  , match_score := matchScore
  , expected := s.expected_output
  , actual :=
      match execStep with
      | some e => if e.output = "" then "No data" else e.output
      | none => "No data" }

/-- `generateMockValidation(sop, execution)`: the per-step validation
results (no draws), the aggregate pass rate and its classification
against the thresholds `0.95` and `0.5`, the recommendation list, and
the `val-${randomHex(8)}` id (8 draws); returns the artifact and the
next stream position. -/
def generateMockValidation (g : Nat → ℚ) (k : Nat) (sop : SOP) (execution : Execution) :
    Validation × Nat :=
  let validationSteps := sop.steps.map (validationStepFor execution.step_results)
  let passed := (validationSteps.filter (fun v => v.status == "passed")).length
  let rate : ℚ := (passed : ℚ) / (validationSteps.length : ℚ)
  ( { id := "val-" ++ randomHexFrom g k 8
    , overall_status := if rate ≥ 0.95 then "passed" else if rate ≥ 0.5 then "partial" else "failed"
    , passed_steps := passed
    , total_steps := validationSteps.length
    , success_rate := rate
    , validation_steps := validationSteps
    , recommendations :=
        if rate < 1 then
          ["Review failed steps and add explicit waits for element selectors"]
        else
          ["All steps passed. Consider adding edge case tests."] }
  , k + 8 )

/-- Fault injection for the `try/catch` of `runPipeline`: `some err`
makes the corresponding stage generator throw `err` instead of
returning.  The source generators are total; this models the
hypothetical throw the spec reasons about (stages 1, 3, 5 and 6 call
no generator). -/
structure Faults where
  analysis : Option String
  sop : Option String
  execution : Option String
  validation : Option String
deriving DecidableEq

/-- The run with no generator fault: the behavior of the source as
written. -/
def noFaults : Faults :=
  { analysis := none, sop := none, execution := none, validation := none }

/-- The `catch` block of `runPipeline`: set `status: 'failed'` and
append the failure log line. -/
def failSnap (s : PipelineState) (logs : List String) (err : String) :
    PipelineState × List String :=
  ({ s with status := "failed" }, logs ++ ["Pipeline failed: " ++ err])

/-- `runPipeline(fileName)` of the page component, as the final
`(pipeline, logs)` pair once the invocation settles.  `g` is the
`Math.random()` stream (the `video-`, `sop-`, `exec-` and `val-` ids
and the per-step outcome draws are consumed from it left to right),
`framework` is the `framework` React state read by stage 6, and
`(s0, logs0)` is the pipeline/log state at invocation time: the source
updates via `setPipeline(p => ({ ...p, ... }))`, so nothing is reset
beyond the fields each update names. -/
def runPipelineFinal (g : Nat → ℚ) (f : Faults) (framework : String) (fileName : String)
    (s0 : PipelineState) (logs0 : List String) : PipelineState × List String :=
  let s1 := { s0 with status := "running", stage := 1 }
  let logs1 := logs0 ++ ["Starting pipeline for: " ++ fileName]
  let logs2 := logs1 ++ ["Stage 1: Uploading video..."]
  let videoId := "video-" ++ randomHexFrom g 0 8
  let s2 := { s1 with stage := 1, videoId := some videoId }
  let logs3 := logs2 ++ ["Video uploaded: " ++ videoId]
  let s3 := { s2 with stage := 2 }
  let logs4 := logs3 ++ ["Stage 2: Analyzing video with Gemini AI..."]
  match f.analysis with
  | some err => failSnap s3 logs4 err
  | none =>
  let analysis := generateMockAnalysis
  let s4 := { s3 with analysis := some analysis }
  let logs5 := logs4 ++ ["Analysis complete: " ++ toString analysis.workflow_steps.length
      ++ " steps, " ++ toString analysis.systems_detected.length ++ " systems"]
  let s5 := { s4 with stage := 3 }
  let logs6 := logs5 ++ ["Stage 3: Detecting enterprise systems..."]
  let systems : Systems :=
    { total_systems_found := analysis.systems_detected.length
    , detected_systems := analysis.systems_detected
    , detected_workflows := ["Form Filling", "System Navigation", "UI Interaction"] }
  let s6 := { s5 with systems := some systems }
  let logs7 := logs6 ++ ["Detected " ++ toString systems.total_systems_found ++ " systems"]
  let s7 := { s6 with stage := 4 }
  let logs8 := logs7 ++ ["Stage 4: Generating SOP document..."]
  match f.sop with
  | some err => failSnap s7 logs8 err
  | none =>
  let sop := (generateMockSOP g 8 videoId analysis).1
  let s8 := { s7 with sop := some sop }
  let logs9 := logs8 ++ ["SOP generated: " ++ sop.id]
  let s9 := { s8 with stage := 5 }
  let logs10 := logs9 ++ ["Stage 5: Mapping to enterprise systems..."]
  let logs11 := logs10 ++ ["ECM mapping complete: 100% automation coverage"]
  let s10 := { s9 with stage := 6 }
  let logs12 := logs11 ++ ["Stage 6: Generating " ++ framework.toUpper ++ " code..."]
  let logs13 := logs12 ++ ["Code generated: " ++ (if framework = "adk" then "3 files" else "1 file")]
  let s11 := { s10 with stage := 7 }
  let logs14 := logs13 ++ ["Stage 7: Executing automation..."]
  match f.execution with
  | some err => failSnap s11 logs14 err
  | none =>
  let ePair := generateMockExecution g 16 sop
  let e := ePair.1
  let s12 := { s11 with execution := some e }
  let logs15 := logs14 ++ ["Execution " ++ e.execution_id ++ ": "
      ++ toString e.passed_steps ++ "/" ++ toString e.total_steps ++ " passed"]
  let s13 := { s12 with stage := 8 }
  let logs16 := logs15 ++ ["Stage 8: Validating results..."]
  match f.validation with
  | some err => failSnap s13 logs16 err
  | none =>
  let v := (generateMockValidation g ePair.2 sop e).1
  let s14 := { s13 with validation := some v, status := "completed" }
  let logs17 := logs16 ++ ["Validation: " ++ v.overall_status.toUpper ++ " - "
      ++ toString (round (v.success_rate * 100)) ++ "%"]
  let logs18 := logs17 ++ ["Pipeline completed successfully!"]
  (s14, logs18)

/-- The same run as `runPipelineFinal`, as the full trace of
`(pipeline, logs)` snapshots, one snapshot after every `setPipeline`
update and after every `addLog` call, in execution order.  The last
snapshot is the final state. -/
def runPipelineTrace (g : Nat → ℚ) (f : Faults) (framework : String) (fileName : String)
    (s0 : PipelineState) (logs0 : List String) : List (PipelineState × List String) :=
  let s1 := { s0 with status := "running", stage := 1 }
  let logs1 := logs0 ++ ["Starting pipeline for: " ++ fileName]
  let logs2 := logs1 ++ ["Stage 1: Uploading video..."]
  let videoId := "video-" ++ randomHexFrom g 0 8
  let s2 := { s1 with stage := 1, videoId := some videoId }
  let logs3 := logs2 ++ ["Video uploaded: " ++ videoId]
  let s3 := { s2 with stage := 2 }
  let logs4 := logs3 ++ ["Stage 2: Analyzing video with Gemini AI..."]
  [(s1, logs0), (s1, logs1), (s1, logs2), (s2, logs2), (s2, logs3), (s3, logs3), (s3, logs4)] ++
  match f.analysis with
  | some err => [failSnap s3 logs4 err]
  | none =>
  let analysis := generateMockAnalysis
  let s4 := { s3 with analysis := some analysis }
  let logs5 := logs4 ++ ["Analysis complete: " ++ toString analysis.workflow_steps.length
      ++ " steps, " ++ toString analysis.systems_detected.length ++ " systems"]
  let s5 := { s4 with stage := 3 }
  let logs6 := logs5 ++ ["Stage 3: Detecting enterprise systems..."]
  let systems : Systems :=
    { total_systems_found := analysis.systems_detected.length
    , detected_systems := analysis.systems_detected
    , detected_workflows := ["Form Filling", "System Navigation", "UI Interaction"] }
  let s6 := { s5 with systems := some systems }
  let logs7 := logs6 ++ ["Detected " ++ toString systems.total_systems_found ++ " systems"]
  let s7 := { s6 with stage := 4 }
  let logs8 := logs7 ++ ["Stage 4: Generating SOP document..."]
  [(s4, logs4), (s4, logs5), (s5, logs5), (s5, logs6), (s6, logs6), (s6, logs7), (s7, logs7), (s7, logs8)] ++
  match f.sop with
  | some err => [failSnap s7 logs8 err]
  | none =>
  let sop := (generateMockSOP g 8 videoId analysis).1
  let s8 := { s7 with sop := some sop }
  let logs9 := logs8 ++ ["SOP generated: " ++ sop.id]
  let s9 := { s8 with stage := 5 }
  let logs10 := logs9 ++ ["Stage 5: Mapping to enterprise systems..."]
  let logs11 := logs10 ++ ["ECM mapping complete: 100% automation coverage"]
  let s10 := { s9 with stage := 6 }
  let logs12 := logs11 ++ ["Stage 6: Generating " ++ framework.toUpper ++ " code..."]
  let logs13 := logs12 ++ ["Code generated: " ++ (if framework = "adk" then "3 files" else "1 file")]
  let s11 := { s10 with stage := 7 }
  let logs14 := logs13 ++ ["Stage 7: Executing automation..."]
  [(s8, logs8), (s8, logs9), (s9, logs9), (s9, logs10), (s9, logs11), (s10, logs11), (s10, logs12),
   (s10, logs13), (s11, logs13), (s11, logs14)] ++
  match f.execution with
  | some err => [failSnap s11 logs14 err]
  | none =>
  let ePair := generateMockExecution g 16 sop
  let e := ePair.1
  let s12 := { s11 with execution := some e }
  let logs15 := logs14 ++ ["Execution " ++ e.execution_id ++ ": "
      ++ toString e.passed_steps ++ "/" ++ toString e.total_steps ++ " passed"]
  let s13 := { s12 with stage := 8 }
  let logs16 := logs15 ++ ["Stage 8: Validating results..."]
  [(s12, logs14), (s12, logs15), (s13, logs15), (s13, logs16)] ++
  match f.validation with
  | some err => [failSnap s13 logs16 err]
  | none =>
  let v := (generateMockValidation g ePair.2 sop e).1
  let s14 := { s13 with validation := some v, status := "completed" }
  let logs17 := logs16 ++ ["Validation: " ++ v.overall_status.toUpper ++ " - "
      ++ toString (round (v.success_rate * 100)) ++ "%"]
  let logs18 := logs17 ++ ["Pipeline completed successfully!"]
  [(s14, logs16), (s14, logs17), (s14, logs18)]

/-- `handleFileSelect(files)`: runs the pipeline on the first file name
when the list is non-null and non-empty, otherwise does nothing. -/
def handleFileSelect (g : Nat → ℚ) (f : Faults) (framework : String)
    (files : Option (List String)) (s0 : PipelineState) (logs0 : List String) :
    PipelineState × List String :=
  match files with
  | some (name :: _) => runPipelineFinal g f framework name s0 logs0
  | _ => (s0, logs0)

/-! Concrete fixtures used by counterexamples and witnesses. -/

/-- A random stream on which every draw is `0` (every sampled outcome
passes and every hex digit is `0`). -/
def zeroDraws : Nat → ℚ := fun _ => 0

/-- A random stream whose draw number 1 (the draw `generateMockExecution`
spends on the first step's `output`) fails the `< 0.92` test while draw
number 0 (the first step's `status`) passes it. -/
def decoupledDraws : Nat → ℚ := fun n => if n = 1 then 99 / 100 else 0

/-- The SOP the simulated pipeline feeds to the execution generator
(its id drawn from the all-zero stream). -/
def sopDemo : SOP := (generateMockSOP zeroDraws 0 "vid" generateMockAnalysis).1

/-- A single SOP step with a non-empty expected output. -/
def sopOneStep : SOPStep :=
  { step_number := 1, title := "s1", description := "d1"
  , system_involved := "SAP ERP", action_type := "click"
  , expected_output := "ok" }

/-- A one-step SOP with a non-empty expected output. -/
def sopOne : SOP :=
  { id := "sop-1", title := "t", description := "d"
  , steps := [sopOneStep]
  , systems_involved := ["SAP ERP"], success_criteria := "c" }

/-- A one-step SOP whose step has the empty string as expected output. -/
def sopEmptyOut : SOP :=
  { id := "sop-2", title := "t", description := "d"
  , steps := [ { step_number := 1, title := "s1", description := "d1"
               , system_involved := "SAP ERP", action_type := "click"
               , expected_output := "" } ]
  , systems_involved := ["SAP ERP"], success_criteria := "c" }

/-- A one-step execution artifact whose single step result completed. -/
def execOne : Execution :=
  { execution_id := "exec-1", status := "completed", passed_steps := 1
  , total_steps := 1, success_rate := 1
  , step_results := [ { step_number := 1, title := "s1", status := "completed", output := "ok" } ] }

/-! Helper lemmas about the execution step results. -/

/-- `generateMockExecution` produces exactly one step result per SOP step. -/
theorem execStepResults_length (g : Nat → ℚ) (k : Nat) (l : List SOPStep) :
    (execStepResults g k l).length = l.length := by
  induction l generalizing k with
  | nil => rfl
  | cons a rest ih => simp [execStepResults, ih]

/-- If some SOP step in `l` carries the number `n`, then `find` by `n`
over the generated step results succeeds, and the found result's output
is either the expected output of a step of `l` with that number or the
failure sentinel. -/
theorem execStepResults_find (g : Nat → ℚ) (k : Nat) (l : List SOPStep) (n : Nat)
    (h : ∃ s ∈ l, s.step_number = n) :
    ∃ r s, (execStepResults g k l).find? (fun e => e.step_number == n) = some r
      ∧ s ∈ l ∧ s.step_number = n
      ∧ (r.output = s.expected_output ∨ r.output = "Element not found") := by
  induction l generalizing k with
  | nil =>
    obtain ⟨s, hs, _⟩ := h
    exact absurd hs (List.not_mem_nil s)
  | cons a rest ih =>
    by_cases ha : a.step_number = n
    · refine ⟨ { step_number := a.step_number, title := a.title
               , status := if g k < 0.92 then "completed" else "failed"
               , output := if g (k + 1) < 0.92 then a.expected_output else "Element not found" }
             , a, ?_, List.mem_cons_self a rest, ha, ?_⟩
      · rw [execStepResults, List.find?_cons_of_pos]
        simp [ha]
      · by_cases hb : g (k + 1) < 0.92
        · exact Or.inl (by rw [if_pos hb])
        · exact Or.inr (by rw [if_neg hb])
    · obtain ⟨s, hs, hsn⟩ := h
      rcases List.mem_cons.mp hs with rfl | hs2
      · exact absurd hsn ha
      · obtain ⟨r, s2, hf, hm, hn2, ho⟩ := ih (k + 2) ⟨s, hs2, hsn⟩
        refine ⟨r, s2, ?_, List.mem_cons_of_mem a hm, hn2, ho⟩
        rw [execStepResults, List.find?_cons_of_neg]
        · exact hf
        · simp [ha]

/-!  The claims.  -/

/-- Claim C1 (code bug evidence).  The execution generator draws
`Math.random()` twice per step — once for `status`, once for `output` —
so the two are sampled independently: on the stream `decoupledDraws`
the first step of the pipeline's own SOP gets `status = 'completed'`
together with `output = 'Element not found'`, even though its expected
output is the distinct string `'SAP dashboard loaded'`.  This refutes
the claim that `output` echoes `expected_output` exactly on the
completed steps and is the sentinel exactly on the failed ones. -/
theorem execution_status_output_decoupled :
    ((generateMockExecution decoupledDraws 0 sopDemo).1.step_results.head?).map
        (fun r => (r.status, r.output)) = some ("completed", "Element not found")
    ∧ (sopDemo.steps.head?).map SOPStep.expected_output = some "SAP dashboard loaded"
    ∧ ("Element not found" : String) ≠ "SAP dashboard loaded" := by
  refine ⟨?_, rfl, by simp⟩
  norm_num [generateMockExecution, execStepResults, sopDemo, generateMockSOP,
    generateMockAnalysis, decoupledDraws]

/-- Claim C2.  Every validation step scores `1` exactly when the
execution step result found under its step number has status
`completed` and `0.16` otherwise; its status is `passed` iff the score
is at least `0.8`, `partial` iff the score lies in `[0.5, 0.8)` and
`failed` iff it is below `0.5`; and with the two possible scores the
`partial` status never occurs. -/
theorem validation_step_scoring (g : Nat → ℚ) (k : Nat) (sop : SOP) (execution : Execution) :
    ∀ v ∈ ((generateMockValidation g k sop execution).1).validation_steps,
      (v.match_score =
        if (execution.step_results.find? (fun e => e.step_number == v.step_number)).map
            StepResult.status = some "completed" then 1 else 0.16)
      ∧ (v.status = "passed" ↔ 0.8 ≤ v.match_score)
      ∧ (v.status = "partial" ↔ (0.5 ≤ v.match_score ∧ v.match_score < 0.8))
      ∧ (v.status = "failed" ↔ v.match_score < 0.5)
      ∧ v.status ≠ "partial" := by
  intro v hv
  simp only [generateMockValidation, List.mem_map] at hv
  obtain ⟨s, hs, rfl⟩ := hv
  simp only [validationStepFor]
  by_cases h : (execution.step_results.find? (fun e => e.step_number == s.step_number)).map
      StepResult.status = some "completed"
  · simp only [h, if_true]
    norm_num
    simp
  · simp only [h, if_false]
    norm_num
    simp

/-- Claim C6.  The validation report's `overall_status` is `passed` iff
the pass rate is at least `0.95`, `partial` iff it lies in
`[0.5, 0.95)` and `failed` iff it is below `0.5`; `recommendations` is
never empty, holds the review-failed message whenever the rate is below
`1` and the all-passed message when the rate equals `1`.  (The rate is
only a number when the SOP has at least one step; on an empty SOP the
source divides zero by zero.) -/
theorem validation_overall_classification (g : Nat → ℚ) (k : Nat) (sop : SOP)
    (execution : Execution) (h : sop.steps ≠ []) :
    ((generateMockValidation g k sop execution).1.overall_status = "passed"
        ↔ 0.95 ≤ (generateMockValidation g k sop execution).1.success_rate)
    ∧ ((generateMockValidation g k sop execution).1.overall_status = "partial"
        ↔ (0.5 ≤ (generateMockValidation g k sop execution).1.success_rate
            ∧ (generateMockValidation g k sop execution).1.success_rate < 0.95))
    ∧ ((generateMockValidation g k sop execution).1.overall_status = "failed"
        ↔ (generateMockValidation g k sop execution).1.success_rate < 0.5)
    ∧ (generateMockValidation g k sop execution).1.recommendations ≠ []
    ∧ ((generateMockValidation g k sop execution).1.success_rate < 1 →
        (generateMockValidation g k sop execution).1.recommendations
          = ["Review failed steps and add explicit waits for element selectors"])
    ∧ ((generateMockValidation g k sop execution).1.success_rate = 1 →
        (generateMockValidation g k sop execution).1.recommendations
          = ["All steps passed. Consider adding edge case tests."]) := by
  have hst : (generateMockValidation g k sop execution).1.overall_status
      = (if (generateMockValidation g k sop execution).1.success_rate ≥ 0.95 then "passed"
         else if (generateMockValidation g k sop execution).1.success_rate ≥ 0.5 then "partial"
         else "failed") := rfl
  have hrec : (generateMockValidation g k sop execution).1.recommendations
      = (if (generateMockValidation g k sop execution).1.success_rate < 1
         then ["Review failed steps and add explicit waits for element selectors"]
         else ["All steps passed. Consider adding edge case tests."]) := rfl
  rw [hst, hrec]
  set q := (generateMockValidation g k sop execution).1.success_rate with hq
  refine ⟨?_, ?_, ?_, ?_, ?_, ?_⟩
  · by_cases h95 : (0.95 : ℚ) ≤ q
    · simp only [if_pos h95]
      exact ⟨fun _ => h95, fun _ => trivial⟩
    · simp only [if_neg h95]
      constructor
      · intro habs
        split at habs <;> simp at habs
      · intro hc
        exact absurd hc h95
  · by_cases h95 : (0.95 : ℚ) ≤ q
    · simp only [if_pos h95]
      constructor
      · intro habs
        simp at habs
      · rintro ⟨-, hlt⟩
        exact absurd h95 (not_le.mpr hlt)
    · simp only [if_neg h95]
      by_cases h5 : (0.5 : ℚ) ≤ q
      · simp only [if_pos h5]
        exact ⟨fun _ => ⟨h5, not_le.mp h95⟩, fun _ => trivial⟩
      · simp only [if_neg h5]
        constructor
        · intro habs
          simp at habs
        · rintro ⟨hge, -⟩
          exact absurd hge h5
  · by_cases h95 : (0.95 : ℚ) ≤ q
    · simp only [if_pos h95]
      constructor
      · intro habs
        simp at habs
      · intro hlt
        have : (0.5 : ℚ) ≤ q := le_trans (by norm_num) h95
        exact absurd hlt (not_lt.mpr this)
    · simp only [if_neg h95]
      by_cases h5 : (0.5 : ℚ) ≤ q
      · simp only [if_pos h5]
        constructor
        · intro habs
          simp at habs
        · intro hlt
          exact absurd hlt (not_lt.mpr h5)
      · simp only [if_neg h5]
        exact ⟨fun _ => not_le.mp h5, fun _ => trivial⟩
  · split <;> simp
  · intro h1
    simp only [if_pos h1]
  · intro h1
    rw [if_neg]
    rw [h1]
    norm_num

/-- Claim C7.  The execution summary's `success_rate` is exactly the
rational quotient `passed_steps / total_steps`, `passed_steps` counts
the step results whose status is `completed`, `total_steps` counts all
step results (one per SOP step), and the summary status is `completed`
iff every step passed, `partial` otherwise. -/
theorem execution_aggregate_exact (g : Nat → ℚ) (k : Nat) (sop : SOP)
    (h : sop.steps ≠ []) :
    (generateMockExecution g k sop).1.success_rate
        = ((generateMockExecution g k sop).1.passed_steps : ℚ)
            / ((generateMockExecution g k sop).1.total_steps : ℚ)
    ∧ (generateMockExecution g k sop).1.passed_steps
        = ((generateMockExecution g k sop).1.step_results.filter
            (fun r => r.status == "completed")).length
    ∧ (generateMockExecution g k sop).1.total_steps
        = (generateMockExecution g k sop).1.step_results.length
    ∧ (generateMockExecution g k sop).1.total_steps = sop.steps.length
    ∧ ((generateMockExecution g k sop).1.status = "completed"
        ↔ (generateMockExecution g k sop).1.passed_steps
            = (generateMockExecution g k sop).1.total_steps)
    ∧ ((generateMockExecution g k sop).1.status = "partial"
        ↔ (generateMockExecution g k sop).1.passed_steps
            ≠ (generateMockExecution g k sop).1.total_steps) := by
  refine ⟨rfl, rfl, rfl, execStepResults_length g k sop.steps, ?_, ?_⟩
  · have hst : (generateMockExecution g k sop).1.status
        = (if (generateMockExecution g k sop).1.passed_steps
              = (generateMockExecution g k sop).1.total_steps
           then "completed" else "partial") := rfl
    rw [hst]
    split
    · exact ⟨fun _ => by assumption, fun _ => rfl⟩
    · constructor
      · intro habs
        simp at habs
      · intro hc
        exact absurd hc (by assumption)
  · have hst : (generateMockExecution g k sop).1.status
        = (if (generateMockExecution g k sop).1.passed_steps
              = (generateMockExecution g k sop).1.total_steps
           then "completed" else "partial") := rfl
    rw [hst]
    split
    · constructor
      · intro habs
        simp at habs
      · intro hne
        exact absurd (by assumption) hne
    · exact ⟨fun _ => by assumption, fun _ => rfl⟩

/-- Claim C8 (counterexample).  On the pipeline's own analysis artifact,
`generateMockSOP` returns the hard-coded three-element
`systems_involved` list, while the distinct system names observed in
the workflow steps are just `SAP ERP`: the two lists differ, refuting
the claim that `systems_involved` equals the distinct systems of the
workflow steps. -/
theorem sop_systems_involved_fixed_cex :
    (generateMockSOP zeroDraws 0 "vid" generateMockAnalysis).1.systems_involved
        = ["SAP ERP", "Microsoft Outlook", "Chrome Browser"]
    ∧ (generateMockAnalysis.workflow_steps.map (fun ws => ws.system)).dedup = ["SAP ERP"]
    ∧ (["SAP ERP", "Microsoft Outlook", "Chrome Browser"] : List String) ≠ ["SAP ERP"] := by
  refine ⟨rfl, ?_, by simp⟩
  simp [generateMockAnalysis]

/-- Claim C8 (amended).  The SOP generator maps each workflow step to
exactly one SOP step, one-to-one and in order, copying `step_number`,
`title`, `description`, `action_type` and `expected_output` and putting
the step's `system` into `system_involved`; but `systems_involved` is
the fixed list `SAP ERP / Microsoft Outlook / Chrome Browser`,
independent of the workflow steps. -/
theorem sop_step_mapping (g : Nat → ℚ) (k : Nat) (videoId : String) (analysis : Analysis) :
    (generateMockSOP g k videoId analysis).1.steps
        = analysis.workflow_steps.map (fun ws =>
            { step_number := ws.step_number
            , title := ws.title
            , description := ws.description
            , system_involved := ws.system
            , action_type := ws.action_type
            , expected_output := ws.expected_output })
    ∧ (generateMockSOP g k videoId analysis).1.steps.length
        = analysis.workflow_steps.length
    ∧ (generateMockSOP g k videoId analysis).1.systems_involved
        = ["SAP ERP", "Microsoft Outlook", "Chrome Browser"] := by
  refine ⟨rfl, ?_, rfl⟩
  simp [generateMockSOP]

/-- Claim C3.  Every run of `runPipeline` that ends with status
`completed` ends at stage 8 with all five artifacts present, and the
artifacts are mutually consistent: the systems count equals the length
of the detected-systems list, the SOP has one step per workflow step,
the execution has one step result per SOP step, and the validation has
one step per execution step. -/
theorem pipeline_completed_consistent (g : Nat → ℚ) (f : Faults) (framework fileName : String)
    (s0 : PipelineState) (logs0 : List String)
    (h : (runPipelineFinal g f framework fileName s0 logs0).1.status = "completed") :
    (runPipelineFinal g f framework fileName s0 logs0).1.stage = 8
    ∧ ∃ a sy so e v,
        (runPipelineFinal g f framework fileName s0 logs0).1.analysis = some a
        ∧ (runPipelineFinal g f framework fileName s0 logs0).1.systems = some sy
        ∧ (runPipelineFinal g f framework fileName s0 logs0).1.sop = some so
        ∧ (runPipelineFinal g f framework fileName s0 logs0).1.execution = some e
        ∧ (runPipelineFinal g f framework fileName s0 logs0).1.validation = some v
        ∧ sy.total_systems_found = sy.detected_systems.length
        ∧ so.steps.length = a.workflow_steps.length
        ∧ e.total_steps = so.steps.length
        ∧ v.total_steps = e.total_steps := by
  obtain ⟨fa, fs, fe, fv⟩ := f
  cases fa with
  | some err => exact absurd h (by simp [runPipelineFinal, failSnap])
  | none =>
    cases fs with
    | some err => exact absurd h (by simp [runPipelineFinal, failSnap])
    | none =>
      cases fe with
      | some err => exact absurd h (by simp [runPipelineFinal, failSnap])
      | none =>
        cases fv with
        | some err => exact absurd h (by simp [runPipelineFinal, failSnap])
        | none =>
          exact ⟨rfl, _, _, _, _, _, rfl, rfl, rfl, rfl, rfl, rfl, rfl, rfl, rfl⟩

/-- Witness for claim C3: the demo run on the all-zero stream completes,
and the consistency conclusions hold for it. -/
theorem pipeline_completed_consistent_witness :
    (runPipelineFinal zeroDraws noFaults "adk" "demo_sap_purchase_order.mp4"
        initialPipelineState []).1.status = "completed"
    ∧ ((runPipelineFinal zeroDraws noFaults "adk" "demo_sap_purchase_order.mp4"
          initialPipelineState []).1.stage = 8
      ∧ ∃ a sy so e v,
          (runPipelineFinal zeroDraws noFaults "adk" "demo_sap_purchase_order.mp4"
              initialPipelineState []).1.analysis = some a
          ∧ (runPipelineFinal zeroDraws noFaults "adk" "demo_sap_purchase_order.mp4"
              initialPipelineState []).1.systems = some sy
          ∧ (runPipelineFinal zeroDraws noFaults "adk" "demo_sap_purchase_order.mp4"
              initialPipelineState []).1.sop = some so
          ∧ (runPipelineFinal zeroDraws noFaults "adk" "demo_sap_purchase_order.mp4"
              initialPipelineState []).1.execution = some e
          ∧ (runPipelineFinal zeroDraws noFaults "adk" "demo_sap_purchase_order.mp4"
              initialPipelineState []).1.validation = some v
          ∧ sy.total_systems_found = sy.detected_systems.length
          ∧ so.steps.length = a.workflow_steps.length
          ∧ e.total_steps = so.steps.length
          ∧ v.total_steps = e.total_steps) :=
  ⟨rfl, pipeline_completed_consistent zeroDraws noFaults "adk" "demo_sap_purchase_order.mp4"
      initialPipelineState [] rfl⟩

/-- Claim C4.  When a stage generator throws during a fresh run, the run
ends with status `failed`, the failure log line is the last log entry,
the stage stays at the value it had when the generator was called (2
for analysis, 4 for SOP, 7 for execution, 8 for validation), and the
failing stage's artifact is not recorded; in particular an
execution-generator throw leaves both `execution` and `validation`
absent. -/
theorem pipeline_generator_fault_aborts (g : Nat → ℚ) (framework fileName err : String)
    (logs0 : List String) :
    ((runPipelineFinal g { analysis := some err, sop := none, execution := none, validation := none }
        framework fileName initialPipelineState logs0).1.status = "failed"
      ∧ (runPipelineFinal g { analysis := some err, sop := none, execution := none, validation := none }
        framework fileName initialPipelineState logs0).1.stage = 2
      ∧ (runPipelineFinal g { analysis := some err, sop := none, execution := none, validation := none }
        framework fileName initialPipelineState logs0).1.analysis = none
      ∧ (runPipelineFinal g { analysis := some err, sop := none, execution := none, validation := none }
        framework fileName initialPipelineState logs0).2.getLast?
          = some ("Pipeline failed: " ++ err))
    ∧ ((runPipelineFinal g { analysis := none, sop := some err, execution := none, validation := none }
        framework fileName initialPipelineState logs0).1.status = "failed"
      ∧ (runPipelineFinal g { analysis := none, sop := some err, execution := none, validation := none }
        framework fileName initialPipelineState logs0).1.stage = 4
      ∧ (runPipelineFinal g { analysis := none, sop := some err, execution := none, validation := none }
        framework fileName initialPipelineState logs0).1.sop = none
      ∧ (runPipelineFinal g { analysis := none, sop := some err, execution := none, validation := none }
        framework fileName initialPipelineState logs0).2.getLast?
          = some ("Pipeline failed: " ++ err))
    ∧ ((runPipelineFinal g { analysis := none, sop := none, execution := some err, validation := none }
        framework fileName initialPipelineState logs0).1.status = "failed"
      ∧ (runPipelineFinal g { analysis := none, sop := none, execution := some err, validation := none }
        framework fileName initialPipelineState logs0).1.stage = 7
      ∧ (runPipelineFinal g { analysis := none, sop := none, execution := some err, validation := none }
        framework fileName initialPipelineState logs0).1.execution = none
      ∧ (runPipelineFinal g { analysis := none, sop := none, execution := some err, validation := none }
        framework fileName initialPipelineState logs0).1.validation = none
      ∧ (runPipelineFinal g { analysis := none, sop := none, execution := some err, validation := none }
        framework fileName initialPipelineState logs0).2.getLast?
          = some ("Pipeline failed: " ++ err))
    ∧ ((runPipelineFinal g { analysis := none, sop := none, execution := none, validation := some err }
        framework fileName initialPipelineState logs0).1.status = "failed"
      ∧ (runPipelineFinal g { analysis := none, sop := none, execution := none, validation := some err }
        framework fileName initialPipelineState logs0).1.stage = 8
      ∧ (runPipelineFinal g { analysis := none, sop := none, execution := none, validation := some err }
        framework fileName initialPipelineState logs0).1.validation = none
      ∧ (runPipelineFinal g { analysis := none, sop := none, execution := none, validation := some err }
        framework fileName initialPipelineState logs0).2.getLast?
          = some ("Pipeline failed: " ++ err)) := by
  refine ⟨⟨rfl, rfl, rfl, ?_⟩, ⟨rfl, rfl, rfl, ?_⟩, ⟨rfl, rfl, rfl, rfl, ?_⟩,
      ⟨rfl, rfl, rfl, ?_⟩⟩ <;> exact List.getLast?_concat _

/-- Claim C9 (counterexample).  Invoking the pipeline with the empty
file name, or while the state already says `running`, is not rejected:
the run executes all eight stages, completes, and appends its full log
output. -/
theorem runPipeline_unguarded_cex :
    (runPipelineFinal zeroDraws noFaults "adk" "" initialPipelineState []).1.status = "completed"
    ∧ (runPipelineFinal zeroDraws noFaults "adk" "" initialPipelineState []).1.stage = 8
    ∧ (runPipelineFinal zeroDraws noFaults "adk" "" initialPipelineState []).2.length = 18
    ∧ (runPipelineFinal zeroDraws noFaults "adk" "busy.mp4"
        { initialPipelineState with status := "running", stage := 3 } []).1.status = "completed"
    ∧ (runPipelineFinal zeroDraws noFaults "adk" "busy.mp4"
        { initialPipelineState with status := "running", stage := 3 } []).2.length = 18 :=
  ⟨rfl, rfl, rfl, rfl, rfl⟩

/-- Claim C9 (amended).  `runPipeline` itself checks nothing: with an
empty `videoName`, or from any prior state (including one whose status
is `running`), it still transitions to `running`, executes every stage
and completes, appending 18 log lines.  The only guards live outside
it: `handleFileSelect` does nothing on a null or empty file list, and
the demo button is disabled by the UI while the status is `running`. -/
theorem runPipeline_performs_no_checks (g : Nat → ℚ) (framework : String)
    (s0 : PipelineState) (logs0 : List String) :
    handleFileSelect g noFaults framework none s0 logs0 = (s0, logs0)
    ∧ handleFileSelect g noFaults framework (some []) s0 logs0 = (s0, logs0)
    ∧ (runPipelineFinal g noFaults framework "" s0 logs0).1.status = "completed"
    ∧ (runPipelineFinal g noFaults framework "" s0 logs0).1.stage = 8
    ∧ (runPipelineFinal g noFaults framework "" s0 logs0).2.length = logs0.length + 18 := by
  refine ⟨rfl, rfl, rfl, rfl, ?_⟩
  simp [runPipelineFinal, noFaults, failSnap, List.length_append]

/-- Claim C5 (counterexample).  Part one: after a completed run, a
second invocation of `runPipeline` begins with the previous run's
`analysis` artifact still present — the run is not fresh.  Part two:
even in a first run from the initial state, the snapshot right after
the stage counter moves to 3 still has no `systems` artifact, so the
artifact for stage `N` is not present as soon as `stage >= N`. -/
theorem pipeline_run_not_fresh_cex :
    ((runPipelineTrace zeroDraws noFaults "adk" "b.mp4"
        (runPipelineFinal zeroDraws noFaults "adk" "a.mp4" initialPipelineState []).1
        (runPipelineFinal zeroDraws noFaults "adk" "a.mp4" initialPipelineState []).2).head?).map
      (fun p => (p.1.stage, p.1.status, p.1.analysis.isSome)) = some (1, "running", true)
    ∧ (((runPipelineTrace zeroDraws noFaults "adk" "a.mp4" initialPipelineState []).get? 9).map
      (fun p => (p.1.stage, p.1.systems.isSome))) = some (3, false) :=
  ⟨rfl, rfl⟩

/-- The validation step the generator produces for `sopOne` against
`execOne` (used as a concrete witness input). -/
def valStepOne : ValidationStep := validationStepFor execOne.step_results sopOneStep

/-- Witness for claim C2: the scoring conclusions at the concrete
one-step SOP `sopOne` against the concrete execution `execOne`. -/
theorem validation_step_scoring_witness :
    valStepOne ∈ ((generateMockValidation zeroDraws 0 sopOne execOne).1).validation_steps
    ∧ ((valStepOne.match_score =
        if (execOne.step_results.find? (fun e => e.step_number == valStepOne.step_number)).map
            StepResult.status = some "completed" then 1 else 0.16)
      ∧ (valStepOne.status = "passed" ↔ 0.8 ≤ valStepOne.match_score)
      ∧ (valStepOne.status = "partial" ↔ (0.5 ≤ valStepOne.match_score ∧ valStepOne.match_score < 0.8))
      ∧ (valStepOne.status = "failed" ↔ valStepOne.match_score < 0.5)
      ∧ valStepOne.status ≠ "partial") :=
  have hm : valStepOne ∈ ((generateMockValidation zeroDraws 0 sopOne execOne).1).validation_steps :=
    List.mem_cons_self valStepOne []
  ⟨hm, validation_step_scoring zeroDraws 0 sopOne execOne valStepOne hm⟩

/-- Witness for claim C6: the classification conclusions at the
concrete one-step SOP `sopOne` against the concrete execution
`execOne`. -/
theorem validation_overall_classification_witness :
    sopOne.steps ≠ []
    ∧ (((generateMockValidation zeroDraws 0 sopOne execOne).1.overall_status = "passed"
        ↔ 0.95 ≤ (generateMockValidation zeroDraws 0 sopOne execOne).1.success_rate)
      ∧ ((generateMockValidation zeroDraws 0 sopOne execOne).1.overall_status = "partial"
        ↔ (0.5 ≤ (generateMockValidation zeroDraws 0 sopOne execOne).1.success_rate
            ∧ (generateMockValidation zeroDraws 0 sopOne execOne).1.success_rate < 0.95))
      ∧ ((generateMockValidation zeroDraws 0 sopOne execOne).1.overall_status = "failed"
        ↔ (generateMockValidation zeroDraws 0 sopOne execOne).1.success_rate < 0.5)
      ∧ (generateMockValidation zeroDraws 0 sopOne execOne).1.recommendations ≠ []
      ∧ ((generateMockValidation zeroDraws 0 sopOne execOne).1.success_rate < 1 →
          (generateMockValidation zeroDraws 0 sopOne execOne).1.recommendations
            = ["Review failed steps and add explicit waits for element selectors"])
      ∧ ((generateMockValidation zeroDraws 0 sopOne execOne).1.success_rate = 1 →
          (generateMockValidation zeroDraws 0 sopOne execOne).1.recommendations
            = ["All steps passed. Consider adding edge case tests."])) :=
  ⟨by simp [sopOne], validation_overall_classification zeroDraws 0 sopOne execOne (by simp [sopOne])⟩

/-- Witness for claim C7: the aggregate conclusions at the concrete
one-step SOP `sopOne` on the all-zero stream. -/
theorem execution_aggregate_exact_witness :
    sopOne.steps ≠ []
    ∧ ((generateMockExecution zeroDraws 0 sopOne).1.success_rate
        = ((generateMockExecution zeroDraws 0 sopOne).1.passed_steps : ℚ)
            / ((generateMockExecution zeroDraws 0 sopOne).1.total_steps : ℚ)
      ∧ (generateMockExecution zeroDraws 0 sopOne).1.passed_steps
        = ((generateMockExecution zeroDraws 0 sopOne).1.step_results.filter
            (fun r => r.status == "completed")).length
      ∧ (generateMockExecution zeroDraws 0 sopOne).1.total_steps
        = (generateMockExecution zeroDraws 0 sopOne).1.step_results.length
      ∧ (generateMockExecution zeroDraws 0 sopOne).1.total_steps = sopOne.steps.length
      ∧ ((generateMockExecution zeroDraws 0 sopOne).1.status = "completed"
        ↔ (generateMockExecution zeroDraws 0 sopOne).1.passed_steps
            = (generateMockExecution zeroDraws 0 sopOne).1.total_steps)
      ∧ ((generateMockExecution zeroDraws 0 sopOne).1.status = "partial"
        ↔ (generateMockExecution zeroDraws 0 sopOne).1.passed_steps
            ≠ (generateMockExecution zeroDraws 0 sopOne).1.total_steps)) :=
  ⟨by simp [sopOne], execution_aggregate_exact zeroDraws 0 sopOne (by simp [sopOne])⟩

/-- Claim C10 (counterexample).  For a SOP whose step has the empty
string as expected output, the execution generator can produce a
completed step whose output is the empty string, and the validation
generator then renders `actual` as the `No data` sentinel instead of
that output: the fallback branch is reachable, because JavaScript `||`
also replaces the empty string. -/
theorem validation_no_data_reachable_cex :
    ((generateMockExecution zeroDraws 0 sopEmptyOut).1.step_results.head?).map
        (fun r => (r.status, r.output)) = some ("completed", "")
    ∧ (((generateMockValidation zeroDraws 0 sopEmptyOut
          (generateMockExecution zeroDraws 0 sopEmptyOut).1).1.validation_steps.head?).map
        (fun v => v.actual)) = some "No data"
    ∧ ("No data" : String) ≠ "" := by
  refine ⟨?_, ?_, by simp⟩
  · norm_num [generateMockExecution, execStepResults, sopEmptyOut, zeroDraws]
  · norm_num [generateMockValidation, validationStepFor, generateMockExecution,
      execStepResults, sopEmptyOut, zeroDraws]

/-- Claim C10 (amended).  For every SOP all of whose steps have a
non-empty expected output — which includes the SOP the pipeline itself
produces — every validation step's `actual` equals the output of the
execution step result found under its step number, and the execution
generator produces exactly one step result per SOP step. -/
theorem validation_actual_matches_output (g : Nat → ℚ) (k k2 : Nat) (sop : SOP)
    (h : ∀ s ∈ sop.steps, s.expected_output ≠ "") :
    ∀ v ∈ ((generateMockValidation g k2 sop (generateMockExecution g k sop).1).1).validation_steps,
      ∃ r, (generateMockExecution g k sop).1.step_results.find?
            (fun e => e.step_number == v.step_number) = some r
        ∧ v.actual = r.output := by
  intro v hv
  simp only [generateMockValidation, List.mem_map] at hv
  obtain ⟨s, hs, rfl⟩ := hv
  obtain ⟨r, s2, hf, hm2, hn2, ho⟩ :=
    execStepResults_find g k sop.steps s.step_number ⟨s, hs, rfl⟩
  have hf2 : (generateMockExecution g k sop).1.step_results.find?
      (fun e => e.step_number == s.step_number) = some r := hf
  have hout : r.output ≠ "" := by
    rcases ho with h1 | h1
    · rw [h1]
      exact h s2 hm2
    · rw [h1]
      simp
  refine ⟨r, ?_, ?_⟩
  · simpa only [validationStepFor] using hf2
  · simp only [validationStepFor, hf2]
    rw [if_neg hout]

/-- The validation step the generator produces for `sopOne` against the
execution artifact generated from `sopOne` on the all-zero stream. -/
def valStepGen : ValidationStep :=
  validationStepFor (generateMockExecution zeroDraws 0 sopOne).1.step_results sopOneStep

/-- Witness for the amended claim C10: at the concrete one-step SOP
`sopOne` (whose expected output is non-empty), the generated validation
step's `actual` equals the found execution output. -/
theorem validation_actual_matches_output_witness :
    (∀ s ∈ sopOne.steps, s.expected_output ≠ "")
    ∧ valStepGen ∈ ((generateMockValidation zeroDraws 0 sopOne
        (generateMockExecution zeroDraws 0 sopOne).1).1).validation_steps
    ∧ ∃ r, (generateMockExecution zeroDraws 0 sopOne).1.step_results.find?
          (fun e => e.step_number == valStepGen.step_number) = some r
        ∧ valStepGen.actual = r.output :=
  have h1 : ∀ s ∈ sopOne.steps, s.expected_output ≠ "" := by
    intro s hs
    rcases List.mem_singleton.mp hs with rfl
    simp [sopOneStep]
  have h2 : valStepGen ∈ ((generateMockValidation zeroDraws 0 sopOne
      (generateMockExecution zeroDraws 0 sopOne).1).1).validation_steps :=
    List.mem_cons_self valStepGen []
  ⟨h1, h2, validation_actual_matches_output zeroDraws 0 0 sopOne h1 valStepGen h2⟩

/-- The per-snapshot artifact/stage relation that actually holds along a
run started from the initial state: an artifact is absent while the
stage counter is still below its stage, present once the counter has
moved past it (stages 2, 3, 4, 7 carry artifacts; stage 8's artifact is
committed together with the `completed` status). -/
abbrev stageArtifactsOk (st : PipelineState) : Prop :=
  (st.stage < 2 → st.analysis = none)
  ∧ (2 < st.stage → st.analysis.isSome = true)
  ∧ (st.stage < 3 → st.systems = none)
  ∧ (3 < st.stage → st.systems.isSome = true)
  ∧ (st.stage < 4 → st.sop = none)
  ∧ (4 < st.stage → st.sop.isSome = true)
  ∧ (st.stage < 7 → st.execution = none)
  ∧ (7 < st.stage → st.execution.isSome = true)
  ∧ (st.validation.isSome = true → (st.stage = 8 ∧ st.status = "completed"))

/-- Executable checker for `stageArtifactsOk` (it evaluates on each
trace snapshot by plain reduction). -/
def stageArtifactsOkB (st : PipelineState) : Bool :=
  (if st.stage < 2 then st.analysis.isNone else true)
  && (if 2 < st.stage then st.analysis.isSome else true)
  && (if st.stage < 3 then st.systems.isNone else true)
  && (if 3 < st.stage then st.systems.isSome else true)
  && (if st.stage < 4 then st.sop.isNone else true)
  && (if 4 < st.stage then st.sop.isSome else true)
  && (if st.stage < 7 then st.execution.isNone else true)
  && (if 7 < st.stage then st.execution.isSome else true)
  && (if st.validation.isSome then (st.stage == 8 && st.status == "completed") else true)

/-- A member of a list on which `all` holds satisfies the checker. -/
theorem mem_all_true {α : Type} (f : α → Bool) {l : List α} {x : α}
    (hx : x ∈ l) (h : l.all f = true) : f x = true :=
  List.all_eq_true.mp h x hx

/-- The Bool checker implies the invariant. -/
theorem stageArtifactsOkB_spec (st : PipelineState) (h : stageArtifactsOkB st = true) :
    stageArtifactsOk st := by
  simp only [stageArtifactsOkB, Bool.and_eq_true] at h
  obtain ⟨⟨⟨⟨⟨⟨⟨⟨h1, h2⟩, h3⟩, h4⟩, h5⟩, h6⟩, h7⟩, h8⟩, h9⟩ := h
  refine ⟨?_, ?_, ?_, ?_, ?_, ?_, ?_, ?_, ?_⟩
  · intro hc
    rw [if_pos hc] at h1
    exact Option.isNone_iff_eq_none.mp h1
  · intro hc
    rw [if_pos hc] at h2
    exact h2
  · intro hc
    rw [if_pos hc] at h3
    exact Option.isNone_iff_eq_none.mp h3
  · intro hc
    rw [if_pos hc] at h4
    exact h4
  · intro hc
    rw [if_pos hc] at h5
    exact Option.isNone_iff_eq_none.mp h5
  · intro hc
    rw [if_pos hc] at h6
    exact h6
  · intro hc
    rw [if_pos hc] at h7
    exact Option.isNone_iff_eq_none.mp h7
  · intro hc
    rw [if_pos hc] at h8
    exact h8
  · intro hc
    rw [if_pos hc] at h9
    simpa only [Bool.and_eq_true, beq_iff_eq] using h9

/-- Claim C5 (amended).  `runPipeline` keeps whatever artifacts the
previous state holds, so freshness holds only for a run started from
the initial state; for such a run — with or without generator faults —
the first snapshot has all five artifacts absent, the stage counter
never decreases along the trace, and every snapshot satisfies
`stageArtifactsOk`: the artifact of stage `N` is absent while
`stage < N` and present once `stage > N` (at `stage = N` it appears
only once that stage's generator has committed, the stage counter
having been advanced before the generator runs). -/
theorem pipeline_trace_stage_invariant (g : Nat → ℚ) (f : Faults)
    (framework fileName : String) (logs0 : List String) :
    (((runPipelineTrace g f framework fileName initialPipelineState logs0).head?).map
        (fun p => (p.1.analysis.isSome, p.1.systems.isSome, p.1.sop.isSome,
                   p.1.execution.isSome, p.1.validation.isSome))
      = some (false, false, false, false, false))
    ∧ List.Chain' (fun p q => p.1.stage ≤ q.1.stage)
        (runPipelineTrace g f framework fileName initialPipelineState logs0)
    ∧ ∀ p ∈ runPipelineTrace g f framework fileName initialPipelineState logs0,
        stageArtifactsOk p.1 := by
  obtain ⟨fa, fs, fe, fv⟩ := f
  refine ⟨rfl, ?_, ?_⟩
  · cases fa with
    | some err =>
      refine (List.chain'_map (fun p : PipelineState × List String => p.1.stage)).mp ?_
      have hm : (runPipelineTrace g ⟨some err, fs, fe, fv⟩ framework fileName
            initialPipelineState logs0).map (fun p : PipelineState × List String => p.1.stage)
          = [1, 1, 1, 1, 1, 2, 2, 2] := rfl
      rw [hm]
      simp [List.chain'_cons]
    | none =>
      cases fs with
      | some err =>
        refine (List.chain'_map (fun p : PipelineState × List String => p.1.stage)).mp ?_
        have hm : (runPipelineTrace g ⟨none, some err, fe, fv⟩ framework fileName
              initialPipelineState logs0).map (fun p : PipelineState × List String => p.1.stage)
            = [1, 1, 1, 1, 1, 2, 2, 2, 2, 3, 3, 3, 3, 4, 4, 4] := rfl
        rw [hm]
        simp [List.chain'_cons]
      | none =>
        cases fe with
        | some err =>
          refine (List.chain'_map (fun p : PipelineState × List String => p.1.stage)).mp ?_
          have hm : (runPipelineTrace g ⟨none, none, some err, fv⟩ framework fileName
                initialPipelineState logs0).map (fun p : PipelineState × List String => p.1.stage)
              = [1, 1, 1, 1, 1, 2, 2, 2, 2, 3, 3, 3, 3, 4, 4, 4, 4, 5, 5, 5, 6, 6, 6, 7, 7, 7] := rfl
          rw [hm]
          simp [List.chain'_cons]
        | none =>
          cases fv with
          | some err =>
            refine (List.chain'_map (fun p : PipelineState × List String => p.1.stage)).mp ?_
            have hm : (runPipelineTrace g ⟨none, none, none, some err⟩ framework fileName
                  initialPipelineState logs0).map (fun p : PipelineState × List String => p.1.stage)
                = [1, 1, 1, 1, 1, 2, 2, 2, 2, 3, 3, 3, 3, 4, 4, 4, 4, 5, 5, 5, 6, 6, 6,
                   7, 7, 7, 7, 8, 8, 8] := rfl
            rw [hm]
            simp [List.chain'_cons]
          | none =>
            refine (List.chain'_map (fun p : PipelineState × List String => p.1.stage)).mp ?_
            have hm : (runPipelineTrace g ⟨none, none, none, none⟩ framework fileName
                  initialPipelineState logs0).map (fun p : PipelineState × List String => p.1.stage)
                = [1, 1, 1, 1, 1, 2, 2, 2, 2, 3, 3, 3, 3, 4, 4, 4, 4, 5, 5, 5, 6, 6, 6,
                   7, 7, 7, 7, 8, 8, 8, 8, 8] := rfl
            rw [hm]
            simp [List.chain'_cons]
  · cases fa <;> cases fs <;> cases fe <;> cases fv <;>
      exact fun p hp => stageArtifactsOkB_spec p.1
        (mem_all_true (fun q : PipelineState × List String => stageArtifactsOkB q.1) hp rfl)

end StudioView
